import Mathlib

/-!
Shallow embedding of the VocalAlchemy front end (src/frontend/src), covering
the service layer (`services/api.ts`, `services/promptFlows.api.ts`), the
router and route guard (`router.tsx`, `routes/ProtectedRoute.tsx`,
`pages/LoginPage.tsx`), the hooks (`useAnalysisDetail.ts`,
`usePaginatedAnalysisHistory.ts`, `useAnalysisSubmit.ts`), the start-meeting
dialog (`components/meetings/StartMeetingDialog.tsx`), the prompt-flow editor
(`pages/PromptFlowEditorPage.tsx`) and the transcript-highlight handler of
`pages/AnalysisDetailPage.tsx`.  JavaScript numbers that hold integral values
are modelled as `Int` (or `Nat` where the source value is a count), strings as
Lean `String` (the transcript, which is sliced character-wise, as `List Char`),
and network effects as explicit call traces / `Except` results.
-/

namespace VocalAlchemy

/-! ## services/api.ts — `listAnalyses` (lines 89-94)

```ts
const skip = Math.max(0, (page - 1) * pageSize)
const limit = Math.max(1, pageSize)
```
-/

/-- `skip` computed by `listAnalyses` in `services/api.ts`. -/
def listAnalysesSkip (page pageSize : Int) : Int :=
  max 0 ((page - 1) * pageSize)

/-- `limit` computed by `listAnalyses` in `services/api.ts`. -/
def listAnalysesLimit (pageSize : Int) : Int :=
  max 1 pageSize

/-! ## hooks/usePaginatedAnalysisHistory.ts — `fetchAnalyses` (line 19)

```ts
setTotalPages(Math.max(1, Math.ceil(total / pageSize)))
```
`total` and `pageSize` are natural numbers (`pageSize ≥ 1` in every call site),
so `Math.ceil(total / pageSize)` is the ceiling division
`(total + pageSize - 1) / pageSize`. -/

/-- `Math.ceil(total / pageSize)` for natural `total` and positive `pageSize`. -/
def jsCeilDiv (total pageSize : Nat) : Nat :=
  (total + pageSize - 1) / pageSize

/-- The `totalPages` value stored by `fetchAnalyses` in
`usePaginatedAnalysisHistory.ts`: `Math.max(1, Math.ceil(total / pageSize))`. -/
def totalPagesComputed (total pageSize : Nat) : Nat :=
  max 1 (jsCeilDiv total pageSize)

/-! ## router.tsx — the two loaders (lines 20-51) and their attachment (53-110)

`setupLoader` and `protectedRoutesLoader` both call `api.getSetupStatus()`;
the outcome of that call is modelled as `Except Unit Bool` (`.ok admin_exists`
on success, `.error ()` when the check itself fails). -/

/-- Result of a react-router loader: either a `redirect(target)` or `null`
(allow the navigation). -/
inductive LoaderResult
  | redirectTo (target : String)
  | allow
deriving DecidableEq, Repr

/-- `setupLoader` (router.tsx lines 20-34): redirect to `/login` when an admin
already exists; allow otherwise, and also allow when the status check fails
(to avoid lockout). -/
def setupLoader (statusCall : Except Unit Bool) : LoaderResult :=
  match statusCall with
  | .ok adminExists => if adminExists then .redirectTo "/login" else .allow
  | .error _ => .allow

/-- `protectedRoutesLoader` (router.tsx lines 37-51): redirect to `/setup`
when no admin exists, and also when the status check fails; allow when an
admin exists. -/
def protectedRoutesLoader (statusCall : Except Unit Bool) : LoaderResult :=
  match statusCall with
  | .ok adminExists => if adminExists then .allow else .redirectTo "/setup"
  | .error _ => .redirectTo "/setup"

/-- Loader attached by the route table (router.tsx lines 53-110) to each
top-level path: `/setup` carries `setupLoader`, the authenticated area `/`
(with all its children) carries `protectedRoutesLoader`, `/login` and
`/register` carry none. -/
def routeLoader (path : String) : Option (Except Unit Bool → LoaderResult) :=
  if path = "/setup" then some setupLoader
  else if path = "/" then some protectedRoutesLoader
  else none

end VocalAlchemy

namespace VocalAlchemy

/-! ## hooks/useAnalysisDetail.ts — the status-watching effect (lines 42-77)

The effect runs whenever `analysisId` or `analysisData?.status` changes.  Its
body opens exactly one kind of live-update connection: when both are present
and the status is one of the four in-progress statuses it starts
`setInterval(..., 3000)` whose tick calls `api.checkAnalysisStatus`
(`GET /analysis/status/{id}`); otherwise it opens nothing.  No WebSocket
object is constructed anywhere in the module (nor anywhere else in the front
end).  `liveUpdateChannels` records the connections the effect opens. -/

/-- The in-progress status set of `useAnalysisDetail.ts` lines 45-50. -/
def inProgressStatuses : List String :=
  ["PENDING", "TRANSCRIPTION_IN_PROGRESS", "ANALYSIS_PENDING", "ANALYSIS_IN_PROGRESS"]

/-- A live-update connection the front end can open for an analysis. -/
inductive LiveChannel
  | webSocketChannel (path : String)
  | pollingChannel (endpoint : String) (intervalMs : Nat)
deriving DecidableEq, Repr

/-- `true` exactly on WebSocket channels. -/
def LiveChannel.isWebSocket : LiveChannel → Bool
  | .webSocketChannel _ => true
  | .pollingChannel _ _ => false

/-- The live-update connections opened by the status-watching effect of
`useAnalysisDetail` (lines 42-77) for a given `analysisId` and current
`analysisData?.status`. -/
def liveUpdateChannels (analysisId : Option String) (status : Option String) :
    List LiveChannel :=
  match analysisId, status with
  | some aid, some st =>
      if st ∈ inProgressStatuses then
        [.pollingChannel ("/analysis/status/" ++ aid) 3000]
      else []
  | _, _ => []

/-! ## services/api.ts — the response interceptor (lines 29-43)

```ts
const status = error?.response?.status ?? 0
const detail = error?.response?.data?.detail
const message =
  (typeof detail === 'string' && detail) ||
  (Array.isArray(detail) && detail[0]?.msg) ||
  error?.message ||
  'Une erreur réseau est survenue.'
return Promise.reject({ message, status })
```

An axios response object always carries a numeric `status`; `detail` may be a
string, a list of field errors (each with an optional `msg`), absent, or some
other JSON value.  JavaScript `||` takes the first truthy operand, and a
string is truthy iff it is non-empty. -/

/-- The `detail` field of an error response body. -/
inductive DetailValue
  | absent
  | strDetail (s : String)
  | listDetail (msgs : List (Option String))
  | otherDetail
deriving DecidableEq, Repr

/-- An axios error response: HTTP status plus the body's `detail`. -/
structure AxiosResponse where
  status : Nat
  detail : DetailValue
deriving DecidableEq, Repr

/-- An axios error: optional response (absent on pure network errors) and the
error object's own optional `message`. -/
structure AxiosError where
  response : Option AxiosResponse
  message : Option String
deriving DecidableEq, Repr

/-- The generic fallback message of the interceptor. -/
def fallbackMessage : String := "Une erreur réseau est survenue."

/-- `error?.response?.data?.detail` of the interceptor. -/
def detailOf (e : AxiosError) : DetailValue :=
  match e.response with
  | some r => r.detail
  | none => .absent

/-- The `status` computed by the interceptor: `error?.response?.status ?? 0`. -/
def normalizedStatus (e : AxiosError) : Nat :=
  match e.response with
  | some r => r.status
  | none => 0

/-- `error?.message || 'Une erreur réseau est survenue.'`. -/
def ownMessageOrFallback (e : AxiosError) : String :=
  match e.message with
  | some m => if m = "" then fallbackMessage else m
  | none => fallbackMessage

/-- The `message` computed by the interceptor's truthiness chain. -/
def normalizedMessage (e : AxiosError) : String :=
  match detailOf e with
  | .strDetail s => if s = "" then ownMessageOrFallback e else s
  | .listDetail msgs =>
      match msgs.head? with
      | some (some m) => if m = "" then ownMessageOrFallback e else m
      | _ => ownMessageOrFallback e
  | _ => ownMessageOrFallback e

/-- The `{message, status}` pair the interceptor rejects with. -/
def interceptorNormalize (e : AxiosError) : String × Nat :=
  (normalizedMessage e, normalizedStatus e)

/-- First non-`none`, non-empty candidate, else the default. -/
def firstNonEmptyString (cands : List (Option String)) (dflt : String) : String :=
  match cands with
  | [] => dflt
  | some s :: rest => if s = "" then firstNonEmptyString rest dflt else s
  | none :: rest => firstNonEmptyString rest dflt

/-- Spec-side message for the amended C5, written from the amended claim's
words: the first non-empty candidate among the string `detail`, the first
field error's `msg`, and the error's own message, else the generic fallback. -/
def specMessage (e : AxiosError) : String :=
  firstNonEmptyString
    [ (match detailOf e with | .strDetail s => some s | _ => none),
      (match detailOf e with | .listDetail msgs => msgs.head?.getD none | _ => none),
      e.message ]
    fallbackMessage

/-- Spec-side status for the amended C5: the HTTP response status, or 0 when
there is no response. -/
def specStatus (e : AxiosError) : Nat :=
  match e.response with
  | some r => r.status
  | none => 0

/-! ## Two-phase upload pipeline and the start-meeting dialog

`services/promptFlows.api.ts` lines 89-122 (`initiateUpload`,
`uploadFileToSasUrl`, `finalizeUpload`), `hooks/useAnalysisSubmit.ts`
lines 28-48 (`submitAnalysis`) and
`components/meetings/StartMeetingDialog.tsx` (`handleFileChange`,
`handleStart`). -/

/-- `leadingMatch pat xs` is `true` iff `pat` is an initial run of `xs`. -/
def leadingMatch : List Char → List Char → Bool
  | [], _ => true
  | _ :: _, [] => false
  | c :: cs, d :: ds => c == d && leadingMatch cs ds

/-- Executable model of JavaScript `String.prototype.startsWith` (Lean's
`String.startsWith` is extensionally the same but is defined by well-founded
recursion on byte positions, which blocks evaluation inside proofs). -/
def jsStartsWith (s pre : String) : Bool :=
  leadingMatch pre.toList s.toList

/-- Metadata of a selected browser `File`: `name`, `type` (MIME) and `size`
in bytes. -/
structure FileMeta where
  name : String
  mimeType : String
  size : Nat
deriving DecidableEq, Repr

/-- One backend interaction of the upload pipeline / dialog. -/
inductive BackendCall
  | initiateCall (filename : String)
  | putCall (url : String) (file : FileMeta) (contentType : String)
  | finalizeCall (analysisId : String) (promptFlowId : String)
  | renameCall (analysisId : String) (newName : String)
deriving DecidableEq, Repr

/-- Backend responses seen by the pipeline: the initiate-upload endpoint
returns `(sas_url, blob_name, analysis_id)`; the direct PUT and the finalize
endpoint return unit.  `.error` models a failed request (the rejected
promise's message). -/
structure UploadEnv where
  initiateResp : String → Except String (String × String × String)
  putResp : String → FileMeta → Except String Unit
  finalizeResp : String → String → Except String Unit

/-- Content type of the direct PUT in `uploadFileToSasUrl`:
`file.type || 'application/octet-stream'`. -/
def putContentType (f : FileMeta) : String :=
  if f.mimeType = "" then "application/octet-stream" else f.mimeType

/-- `submitAnalysis` of `useAnalysisSubmit.ts` lines 28-48: await
`initiateUpload(file.name)`, then await `uploadFileToSasUrl(sasUrl, file)`,
then await `finalizeUpload(analysisId, promptFlowId)`, and return
`analysisId`; each failed await rethrows and stops the sequence.  The result
is the ordered trace of backend calls together with the outcome. -/
def submitAnalysis (env : UploadEnv) (f : FileMeta) (promptFlowId : String) :
    List BackendCall × Except String String :=
  match env.initiateResp f.name with
  | .error e => ([.initiateCall f.name], .error e)
  | .ok (sasUrl, _blobName, analysisId) =>
    match env.putResp sasUrl f with
    | .error e =>
        ([.initiateCall f.name, .putCall sasUrl f (putContentType f)], .error e)
    | .ok _ =>
      match env.finalizeResp analysisId promptFlowId with
      | .error e =>
          ([.initiateCall f.name, .putCall sasUrl f (putContentType f),
            .finalizeCall analysisId promptFlowId], .error e)
      | .ok _ =>
          ([.initiateCall f.name, .putCall sasUrl f (putContentType f),
            .finalizeCall analysisId promptFlowId], .ok analysisId)

/-- The `sas_url` returned by the initiation call (when it succeeds). -/
def initiatedSas (env : UploadEnv) (f : FileMeta) : String :=
  match env.initiateResp f.name with
  | .ok t => t.1
  | .error _ => ""

/-- The `analysis_id` returned by the initiation call (when it succeeds). -/
def initiatedId (env : UploadEnv) (f : FileMeta) : String :=
  match env.initiateResp f.name with
  | .ok t => t.2.2
  | .error _ => ""

/-- UI effect of the start-meeting dialog. -/
inductive DialogAction
  | toastError (msg : String)
  | toastSuccess (msg : String)
  | invokeOnSuccess (analysisId : String)
  | closeDialog
deriving DecidableEq, Repr

/-- Result of `handleFileChange`: the stored file state, the toasts shown,
and whether the file input element's value was cleared. -/
structure FileChangeResult where
  file : Option FileMeta
  toasts : List DialogAction
  inputCleared : Bool
deriving DecidableEq, Repr

/-- `MAX_FILE_BYTES = 500 * 1024 * 1024` (StartMeetingDialog.tsx line 18). -/
def MAX_FILE_BYTES : Nat := 500 * 1024 * 1024

/-- `handleFileChange` of `StartMeetingDialog.tsx` lines 44-63: clear the
state when nothing is selected; reject (toast, clear the input, clear the
state) a non-`audio/*` MIME type and then a size above `MAX_FILE_BYTES`;
otherwise store the file. -/
def handleFileChange (selected : Option FileMeta) : FileChangeResult :=
  match selected with
  | none => ⟨none, [], false⟩
  | some f =>
      if ¬ jsStartsWith f.mimeType "audio/" then
        ⟨none, [.toastError "Le fichier sélectionné doit être un fichier audio."], true⟩
      else if MAX_FILE_BYTES < f.size then
        ⟨none, [.toastError "La taille maximale autorisée est de 500 Mo."], true⟩
      else ⟨some f, [], false⟩

/-- Submission-relevant state of the start-meeting dialog. -/
structure DialogState where
  selectedPrompt : String
  meetingName : String
  file : Option FileMeta
  isSubmitting : Bool
deriving DecidableEq, Repr

/-- `canSubmit = !!selectedPrompt && !!file && !isSubmitting`
(StartMeetingDialog.tsx line 42). -/
def canSubmit (st : DialogState) : Bool :=
  (!(st.selectedPrompt == "")) && st.file.isSome && (!st.isSubmitting)

/-- Backend calls and UI actions of one `handleStart` run, in order. -/
structure StartOutcome where
  calls : List BackendCall
  actions : List DialogAction
deriving DecidableEq, Repr

/-- Executable model of JavaScript `String.prototype.trim()`: strip leading
and trailing whitespace. -/
def jsTrim (s : String) : String :=
  ⟨((s.toList.dropWhile Char.isWhitespace).reverse.dropWhile
      Char.isWhitespace).reverse⟩

/-- Toast shown when the submission pipeline succeeded. -/
def startedMsg : String := "Réunion démarrée. Le traitement est en cours."

/-- Toast shown when the optional rename failed (tolerated). -/
def renameFailMsg : String :=
  "Le renommage a échoué, la réunion a été démarrée avec le nom d'origine."

/-- Toast shown when submission is attempted with no prompt or file. -/
def missingInputMsg : String :=
  "Veuillez sélectionner un prompt et un fichier audio."

/-- `handleStart` of `StartMeetingDialog.tsx` lines 65-88.  The submit
pipeline is passed as the trace/result function `pipeline` (in the app,
`submitAnalysis env`), and `renameResp` is the outcome of
`renameAnalysis(analysisId, meetingName.trim())`.  A rename failure is caught
inside its own `try`: it adds a warning toast but the success path (success
toast, `onSuccess(analysisId)`, `onOpenChange(false)`) still runs.  A
pipeline failure reaches the outer `catch`: only an error toast. -/
def handleStart (st : DialogState)
    (pipeline : FileMeta → String → List BackendCall × Except String String)
    (renameResp : String → String → Except String Unit) : StartOutcome :=
  if !(canSubmit st) || st.file.isNone then
    ⟨[], [.toastError missingInputMsg]⟩
  else
    match st.file with
    | none => ⟨[], [.toastError missingInputMsg]⟩
    | some f =>
      match pipeline f st.selectedPrompt with
      | (calls, .error e) =>
          ⟨calls, [.toastError (if e = "" then "Échec du démarrage de la réunion" else e)]⟩
      | (calls, .ok analysisId) =>
          if jsTrim st.meetingName = "" then
            ⟨calls, [.toastSuccess startedMsg, .invokeOnSuccess analysisId, .closeDialog]⟩
          else
            match renameResp analysisId (jsTrim st.meetingName) with
            | .ok _ =>
                ⟨calls ++ [.renameCall analysisId (jsTrim st.meetingName)],
                 [.toastSuccess startedMsg, .invokeOnSuccess analysisId, .closeDialog]⟩
            | .error _ =>
                ⟨calls ++ [.renameCall analysisId (jsTrim st.meetingName)],
                 [.toastError renameFailMsg, .toastSuccess startedMsg,
                  .invokeOnSuccess analysisId, .closeDialog]⟩

/-! ## routes/ProtectedRoute.tsx and pages/LoginPage.tsx -/

/-- The auth context value: `isLoading` and the (possibly absent) token. -/
structure AuthCtx where
  isLoading : Bool
  token : Option String
deriving DecidableEq, Repr

/-- What `ProtectedRoute` renders. -/
inductive RouteRender
  | loadingIndicator
  | navigateTo (target : String) (replaceNav : Bool) (stateFrom : Option String)
  | renderChildren
deriving DecidableEq, Repr

/-- `auth?.isLoading` (falsy when the context is absent). -/
def authIsLoading : Option AuthCtx → Bool
  | some a => a.isLoading
  | none => false

/-- Truthiness of `auth && auth.token` (an empty-string token is falsy). -/
def authHasToken : Option AuthCtx → Bool
  | some a =>
      match a.token with
      | some t => !(t == "")
      | none => false
  | none => false

/-- `ProtectedRoute` (ProtectedRoute.tsx lines 9-24): show a loading state
while the token check runs; `Navigate to="/login" replace state={{from:
location}}` when unauthenticated; otherwise render the children. -/
def protectedRoute (auth : Option AuthCtx) (location : String) : RouteRender :=
  if authIsLoading auth then .loadingIndicator
  else if !(authHasToken auth) then .navigateTo "/login" true (some location)
  else .renderChildren

/-- UI effect of the login page's submit handler. -/
inductive LoginAction
  | setAuth (token : String)
  | navigateAction (target : String)
  | setErrorMsg (msg : String)
deriving DecidableEq, Repr

/-- `handleSubmit` of `LoginPage.tsx` lines 20-34: on a successful
`api.login` store the token and `navigate('/')`; on failure set the error
message (`err.message || 'Erreur de connexion'`). -/
def handleSubmitLogin (loginResult : Except String String) : List LoginAction :=
  match loginResult with
  | .ok token => [.setAuth token, .navigateAction "/"]
  | .error e => [.setErrorMsg (if e = "" then "Erreur de connexion" else e)]

/-- Concrete upload environment for the C4 witness. -/
def sampleUploadEnv : UploadEnv :=
  ⟨fun _ => .ok ("https://sas.example/u", "blob-1", "a1"),
   fun _ _ => .ok (), fun _ _ => .ok ()⟩

/-- Concrete audio file for the witnesses. -/
def sampleFile : FileMeta := ⟨"meeting.mp3", "audio/mpeg", 1024⟩

/-- Concrete dialog state for the C10 witness. -/
def sampleDialogState : DialogState :=
  ⟨"flow1", "Sync Produit", some sampleFile, false⟩

/-! ## pages/PromptFlowEditorPage.tsx — load effect (25-52) and handleSave (54-81) -/

/-- A step row of the editor's `steps` state (line 23). -/
structure EditorStep where
  id : String
  name : String
  content : String
deriving DecidableEq, Repr

/-- A step as submitted in a save payload (lines 61 and 69). -/
structure StepPayload where
  name : String
  content : String
  step_order : Nat
deriving DecidableEq, Repr

/-- `steps.map((s, idx) => ({name: s.name, content: s.content, step_order:
idx + 1}))`, with `idx` starting at the given value. -/
def savePayloadStepsFrom : Nat → List EditorStep → List StepPayload
  | _, [] => []
  | idx, s :: rest =>
      ⟨s.name, s.content, idx + 1⟩ :: savePayloadStepsFrom (idx + 1) rest

/-- The step list submitted by `handleSave` — the identical map expression is
used for the update payload (line 61) and the create payload (line 69). -/
def savePayloadSteps (steps : List EditorStep) : List StepPayload :=
  savePayloadStepsFrom 0 steps

/-- A prompt-flow step as returned by the server (`flow.steps`). -/
structure FlowStepDto where
  id : String
  name : Option String
  content : Option String
  step_order : Option Int
deriving DecidableEq, Repr

/-- Insert into a list sorted ascending by `step_order ?? 0`. -/
def insertByOrder (x : FlowStepDto) : List FlowStepDto → List FlowStepDto
  | [] => [x]
  | y :: ys =>
      if x.step_order.getD 0 ≤ y.step_order.getD 0 then x :: y :: ys
      else y :: insertByOrder x ys

/-- The ascending sort by `(a.step_order ?? 0) - (b.step_order ?? 0)` of the
load effect (line 39). -/
def sortByOrder : List FlowStepDto → List FlowStepDto
  | [] => []
  | x :: xs => insertByOrder x (sortByOrder xs)

/-- The editor state built by the load effect (lines 34-41): the steps sorted
ascending by `step_order ?? 0` and projected to `{id, name, content}` — the
loaded `step_order` values are dropped after ordering. -/
def loadedSteps (flowSteps : List FlowStepDto) : List EditorStep :=
  (sortByOrder flowSteps).map (fun s => ⟨s.id, s.name.getD "", s.content.getD ""⟩)

/-! ## pages/AnalysisDetailPage.tsx — `handleActionItemClick` (lines 33-59,
identically repeated at 353-379)

```ts
const start = Math.max(0, Math.min(interval.start, rawText.length))
const end = Math.max(start, Math.min(interval.end, rawText.length))
const before = rawText.slice(0, start)
const middle = rawText.slice(start, end)
const after = rawText.slice(end)
const escapeHtml = (s) => s.replace(/&/g,'&amp;').replace(/</g,'&lt;').replace(/>/g,'&gt;')
const newHtml = `${escapeHtml(before)}<span ...>${escapeHtml(middle)}</span>${escapeHtml(after)}`
```
The transcript is modelled as `List Char`, the interval endpoints as `Int`. -/

/-- `s.replace(/c/g, repl)` for a single-character pattern. -/
def replaceAllChar (target : Char) (repl : List Char) (s : List Char) : List Char :=
  s.flatMap (fun c => if c = target then repl else [c])

/-- The `escapeHtml` helper (lines 49-53): replace every `&`, then every `<`,
then every `>`. -/
def escapeHtml (s : List Char) : List Char :=
  replaceAllChar '>' ("&gt;".toList)
    (replaceAllChar '<' ("&lt;".toList)
      (replaceAllChar '&' ("&amp;".toList) s))

/-- Per-character view of the escaping. -/
def escChar (c : Char) : List Char :=
  if c = '&' then "&amp;".toList
  else if c = '<' then "&lt;".toList
  else if c = '>' then "&gt;".toList
  else [c]

/-- HTML-entity decoding for the three entities the escaper produces: the
text content a browser displays for the escaped fragment. -/
def unescapeHtml : List Char → List Char
  | [] => []
  | '&' :: 'a' :: 'm' :: 'p' :: ';' :: rest => '&' :: unescapeHtml rest
  | '&' :: 'l' :: 't' :: ';' :: rest => '<' :: unescapeHtml rest
  | '&' :: 'g' :: 't' :: ';' :: rest => '>' :: unescapeHtml rest
  | c :: rest => c :: unescapeHtml rest

/-- `Math.max(0, Math.min(interval.start, rawText.length))` (line 42). -/
def clampStart (start len : Int) : Int := max 0 (min start len)

/-- `Math.max(start, Math.min(interval.end, rawText.length))` (line 43). -/
def clampEnd (start1 en len : Int) : Int := max start1 (min en len)

/-- The opening span tag of line 54. -/
def spanOpen : List Char :=
  "<span class=\"highlighted-text\" id=\"highlighted-span\">".toList

/-- The closing span tag of line 54. -/
def spanClose : List Char := "</span>".toList

/-- The clamped start index as a list index. -/
def hlStart (t : List Char) (start : Int) : Nat :=
  (clampStart start t.length).toNat

/-- The clamped end index as a list index. -/
def hlEnd (t : List Char) (start en : Int) : Nat :=
  (clampEnd (clampStart start t.length) en t.length).toNat

/-- `rawText.slice(0, start)` (line 45). -/
def beforeSlice (t : List Char) (start : Int) : List Char :=
  t.take (hlStart t start)

/-- `rawText.slice(start, end)` (line 46). -/
def middleSlice (t : List Char) (start en : Int) : List Char :=
  (t.take (hlEnd t start en)).drop (hlStart t start)

/-- `rawText.slice(end)` (line 47). -/
def afterSlice (t : List Char) (start en : Int) : List Char :=
  t.drop (hlEnd t start en)

/-- The `newHtml` string assigned to `innerHTML` by `handleActionItemClick`
(line 54): escaped before-slice, the span-wrapped escaped middle slice,
escaped after-slice. -/
def highlightHtml (t : List Char) (start en : Int) : List Char :=
  escapeHtml (beforeSlice t start) ++ spanOpen ++
    escapeHtml (middleSlice t start en) ++ spanClose ++
    escapeHtml (afterSlice t start en)

/-- The submitted `step_order` values are `idx+1, idx+2, ...` in display
order. -/
theorem savePayloadStepsFrom_orders (steps : List EditorStep) :
    ∀ k, (savePayloadStepsFrom k steps).map (fun p => p.step_order) =
      List.range' (k + 1) steps.length := by
  induction steps with
  | nil => intro k; rfl
  | cons s rest ih =>
      intro k
      simp [savePayloadStepsFrom, List.range', ih (k + 1)]

/-- Entry `i` of the submitted list is entry `i` of the display order with
`step_order = k + i + 1`. -/
theorem savePayloadStepsFrom_getElem (steps : List EditorStep) :
    ∀ k i, (savePayloadStepsFrom k steps)[i]? =
      (steps[i]?).map (fun s => (⟨s.name, s.content, k + i + 1⟩ : StepPayload)) := by
  induction steps with
  | nil => intro k i; rfl
  | cons s rest ih =>
      intro k i
      cases i with
      | zero => simp [savePayloadStepsFrom]
      | succ j =>
          have harith : k + 1 + j + 1 = k + (j + 1) + 1 := by omega
          simp only [savePayloadStepsFrom, List.getElem?_cons_succ, ih (k + 1) j,
            harith]

/-- Inserting preserves length. -/
theorem insertByOrder_length (x : FlowStepDto) (l : List FlowStepDto) :
    (insertByOrder x l).length = l.length + 1 := by
  induction l with
  | nil => rfl
  | cons y ys ih =>
      by_cases h : x.step_order.getD 0 ≤ y.step_order.getD 0
      · simp [insertByOrder, h]
      · simp [insertByOrder, h, ih]

/-- Sorting preserves length. -/
theorem sortByOrder_length (l : List FlowStepDto) :
    (sortByOrder l).length = l.length := by
  induction l with
  | nil => rfl
  | cons x xs ih => simp [sortByOrder, insertByOrder_length, ih]

/-- `escapeHtml` escapes character-wise. -/
theorem escapeHtml_cons (c : Char) (s : List Char) :
    escapeHtml (c :: s) = escChar c ++ escapeHtml s := by
  by_cases h1 : c = '&'
  · subst h1
    simp [escapeHtml, replaceAllChar, escChar]
  by_cases h2 : c = '<'
  · subst h2
    simp [escapeHtml, replaceAllChar, escChar]
  by_cases h3 : c = '>'
  · subst h3
    simp [escapeHtml, replaceAllChar, escChar]
  · simp [escapeHtml, replaceAllChar, escChar, h1, h2, h3]

/-- No character escapes to a raw angle bracket. -/
theorem escChar_no_angle (c : Char) : '<' ∉ escChar c ∧ '>' ∉ escChar c := by
  by_cases h1 : c = '&'
  · subst h1; constructor <;> decide
  by_cases h2 : c = '<'
  · subst h2; constructor <;> decide
  by_cases h3 : c = '>'
  · subst h3; constructor <;> decide
  · constructor <;> simp [escChar, h1, h2, h3] <;>
      intro hc <;> [exact h2 hc.symm; exact h3 hc.symm]

/-- The escaped output contains no raw `<` or `>`. -/
theorem escapeHtml_no_angle (s : List Char) :
    '<' ∉ escapeHtml s ∧ '>' ∉ escapeHtml s := by
  induction s with
  | nil => constructor <;> simp [escapeHtml, replaceAllChar]
  | cons c s ih =>
      rw [escapeHtml_cons]
      constructor <;> rw [List.mem_append] <;> rintro (h | h)
      · exact (escChar_no_angle c).1 h
      · exact ih.1 h
      · exact (escChar_no_angle c).2 h
      · exact ih.2 h

/-- Decoding the escaped text restores the original text: the displayed text
content equals the input. -/
theorem unescape_escape (s : List Char) : unescapeHtml (escapeHtml s) = s := by
  induction s with
  | nil => rfl
  | cons c s ih =>
      rw [escapeHtml_cons]
      by_cases h1 : c = '&'
      · subst h1
        show unescapeHtml ('&' :: 'a' :: 'm' :: 'p' :: ';' :: escapeHtml s) = _
        simp [unescapeHtml, ih]
      by_cases h2 : c = '<'
      · subst h2
        show unescapeHtml ('&' :: 'l' :: 't' :: ';' :: escapeHtml s) = _
        simp [unescapeHtml, ih]
      by_cases h3 : c = '>'
      · subst h3
        show unescapeHtml ('&' :: 'g' :: 't' :: ';' :: escapeHtml s) = _
        simp [unescapeHtml, ih]
      · have hc : escChar c = [c] := by simp [escChar, h1, h2, h3]
        rw [hc]
        show unescapeHtml (c :: escapeHtml s) = _
        simp [unescapeHtml, h1, ih]

/-- C1 counterexample: for a watched analysis with an in-progress status, the
effect's opened live-update channels consist of the 3000 ms status poll only —
no WebSocket channel is among them, so the socket is not the primary (nor any)
live-update channel. -/
theorem C1_counterexample :
    liveUpdateChannels (some "a1") (some "PENDING") =
      [.pollingChannel "/analysis/status/a1" 3000] ∧
    (liveUpdateChannels (some "a1") (some "PENDING")).any
      LiveChannel.isWebSocket = false := by
  refine ⟨rfl, rfl⟩

/-- C1 (amended): the front end's only live-update channel for a watched
analysis is short-interval polling (every 3000 ms) of the status endpoint,
opened exactly when the current status is one of the in-progress statuses;
no WebSocket channel is ever opened. -/
theorem C1_live_update_channels (aid st : String) (a? s? : Option String) (p : String) :
    liveUpdateChannels (some aid) (some st) =
      (if st ∈ inProgressStatuses then
        [.pollingChannel ("/analysis/status/" ++ aid) 3000]
      else []) ∧
    LiveChannel.webSocketChannel p ∉ liveUpdateChannels a? s? := by
  constructor
  · rfl
  · match a?, s? with
    | none, _ => simp [liveUpdateChannels]
    | some _, none => simp [liveUpdateChannels]
    | some aid', some st' =>
        simp only [liveUpdateChannels]
        split
        · simp
        · simp

/-- C5 counterexample: a response whose body's `detail` is the empty string —
a string — is not normalized to that string: the truthiness chain falls
through to the error's own message, so the normalized pair is
`("boom", 500)`, not `("", 500)` as the claim requires. -/
theorem C5_counterexample :
    interceptorNormalize ⟨some ⟨500, .strDetail ""⟩, some "boom"⟩ = ("boom", 500) ∧
    interceptorNormalize ⟨some ⟨500, .strDetail ""⟩, some "boom"⟩ ≠ ("", 500) := by
  refine ⟨rfl, ?_⟩
  decide

/-- C5 (amended): every failed request is normalized into `{message, status}`
where `status` is the HTTP response status (0 when there is no response) and
`message` is the first non-empty candidate among: the body's `detail` when it
is a string, the first field error's `msg` when `detail` is a list, the
error's own message, and otherwise the generic fallback — uniformly for
network errors and structured API error bodies. -/
theorem C5_interceptor (e : AxiosError) :
    interceptorNormalize e = (specMessage e, specStatus e) := by
  have hst : normalizedStatus e = specStatus e := rfl
  have hmsg : normalizedMessage e = specMessage e := by
    cases e with
    | mk response message =>
        cases response with
        | none =>
            simp [normalizedMessage, specMessage, detailOf, firstNonEmptyString,
              ownMessageOrFallback]
            cases message with
            | none => rfl
            | some m => by_cases hm : m = "" <;> simp [firstNonEmptyString, hm]
        | some r =>
            cases r with
            | mk status detail =>
                cases detail with
                | absent =>
                    simp [normalizedMessage, specMessage, detailOf,
                      firstNonEmptyString, ownMessageOrFallback]
                    cases message with
                    | none => rfl
                    | some m => by_cases hm : m = "" <;> simp [firstNonEmptyString, hm]
                | strDetail s =>
                    by_cases hs : s = "" <;>
                      simp [normalizedMessage, specMessage, detailOf,
                        firstNonEmptyString, ownMessageOrFallback, hs]
                    cases message with
                    | none => rfl
                    | some m => by_cases hm : m = "" <;> simp [firstNonEmptyString, hm]
                | listDetail msgs =>
                    cases msgs with
                    | nil =>
                        simp [normalizedMessage, specMessage, detailOf,
                          firstNonEmptyString, ownMessageOrFallback]
                        cases message with
                        | none => rfl
                        | some m => by_cases hm : m = "" <;> simp [firstNonEmptyString, hm]
                    | cons hd tl =>
                        cases hd with
                        | none =>
                            simp [normalizedMessage, specMessage, detailOf,
                              firstNonEmptyString, ownMessageOrFallback]
                            cases message with
                            | none => rfl
                            | some m => by_cases hm : m = "" <;> simp [firstNonEmptyString, hm]
                        | some m0 =>
                            by_cases h0 : m0 = "" <;>
                              simp [normalizedMessage, specMessage, detailOf,
                                firstNonEmptyString, ownMessageOrFallback, h0]
                            cases message with
                            | none => rfl
                            | some m => by_cases hm : m = "" <;> simp [firstNonEmptyString, hm]
                | otherDetail =>
                    simp [normalizedMessage, specMessage, detailOf,
                      firstNonEmptyString, ownMessageOrFallback]
                    cases message with
                    | none => rfl
                    | some m => by_cases hm : m = "" <;> simp [firstNonEmptyString, hm]
  calc interceptorNormalize e = (normalizedMessage e, normalizedStatus e) := rfl
    _ = (specMessage e, specStatus e) := by rw [hmsg, hst]

/-- C7: on every navigation, the loader attached to the authenticated area
(`/`) redirects to the setup screen whenever no admin exists, and also when
the setup-status check itself fails; the loader attached to the setup screen
redirects to login whenever an admin already exists, and allows the setup
screen both when no admin exists and when the check fails. -/
theorem C7_setup_loaders :
    routeLoader "/" = some protectedRoutesLoader ∧
    routeLoader "/setup" = some setupLoader ∧
    protectedRoutesLoader (.ok false) = .redirectTo "/setup" ∧
    protectedRoutesLoader (.error ()) = .redirectTo "/setup" ∧
    protectedRoutesLoader (.ok true) = .allow ∧
    setupLoader (.ok true) = .redirectTo "/login" ∧
    setupLoader (.ok false) = .allow ∧
    setupLoader (.error ()) = .allow := by
  refine ⟨rfl, rfl, rfl, rfl, rfl, rfl, rfl, rfl⟩

/-- C2 counterexample: for `total = 0`, `pageSize = 10` the code computes
`totalPages = 1`, whereas `ceil(total / pageSize) = 0`, so the claimed
equation `totalPages = ceil(total / pageSize)` fails. -/
theorem C2_counterexample :
    totalPagesComputed 0 10 = 1 ∧ jsCeilDiv 0 10 = 0 ∧ (1 : Nat) ≠ 0 := by
  refine ⟨rfl, rfl, ?_⟩
  decide

/-- C2 (amended): for page `p ≥ 1` and `pageSize ≥ 1` the client requests
`skip = (p-1)*pageSize` and `limit = pageSize`, and from the returned total it
computes `totalPages = max 1 (ceil(total / pageSize))`, which equals
`ceil(total / pageSize)` whenever `total ≥ 1`. -/
theorem C2_pagination (page pageSize : Int) (total pageSizeN : Nat)
    (hp : 1 ≤ page) (hs : 1 ≤ pageSize) (hsN : 1 ≤ pageSizeN) :
    listAnalysesSkip page pageSize = (page - 1) * pageSize ∧
    listAnalysesLimit pageSize = pageSize ∧
    totalPagesComputed total pageSizeN = max 1 (jsCeilDiv total pageSizeN) ∧
    (1 ≤ total → totalPagesComputed total pageSizeN = jsCeilDiv total pageSizeN) := by
  refine ⟨?_, ?_, rfl, ?_⟩
  · have h0 : (0 : Int) ≤ (page - 1) * pageSize :=
      mul_nonneg (by omega) (by omega)
    simpa [listAnalysesSkip] using max_eq_right h0
  · simpa [listAnalysesLimit] using max_eq_right hs
  · intro ht
    have h1 : 1 ≤ jsCeilDiv total pageSizeN := by
      have hle : 1 * pageSizeN ≤ total + pageSizeN - 1 := by omega
      exact (Nat.le_div_iff_mul_le (by omega)).mpr hle
    simpa [totalPagesComputed] using max_eq_right h1

/-- C3: a selected file whose MIME type is not `audio/*`, or whose size
exceeds 500 MB, is rejected client-side: the stored file state is cleared,
the input element is reset, and a subsequent submission attempt performs no
backend call at all (no initiate-upload, no PUT, no finalize — hence no
analysis is created), whatever the pipeline would answer; a file that is an
audio type and at most 500 MB is accepted. -/
theorem C3_file_validation (f : FileMeta) (prompt nm : String)
    (pipeline : FileMeta → String → List BackendCall × Except String String)
    (renameResp : String → String → Except String Unit) :
    if jsStartsWith f.mimeType "audio/" = true ∧ f.size ≤ MAX_FILE_BYTES then
      handleFileChange (some f) = ⟨some f, [], false⟩
    else
      (handleFileChange (some f)).file = none ∧
      (handleFileChange (some f)).inputCleared = true ∧
      handleStart ⟨prompt, nm, (handleFileChange (some f)).file, false⟩
          pipeline renameResp = ⟨[], [.toastError missingInputMsg]⟩ := by
  split_ifs with h
  · obtain ⟨h1, h2⟩ := h
    simp [handleFileChange, h1, Nat.not_lt.mpr h2]
  · have hfile : (handleFileChange (some f)).file = none ∧
        (handleFileChange (some f)).inputCleared = true := by
      by_cases h1 : jsStartsWith f.mimeType "audio/"
      · have h2 : MAX_FILE_BYTES < f.size := by
          by_contra hle
          exact h ⟨h1, Nat.le_of_not_lt hle⟩
        simp [handleFileChange, h1, h2]
      · simp [handleFileChange, h1]
    refine ⟨hfile.1, hfile.2, ?_⟩
    rw [hfile.1]
    simp [handleStart, canSubmit]

/-- C4: every successful run of the two-phase upload helper performs exactly
the three backend calls initiate-upload, PUT to the signed URL, finalize — in
that order (the PUT only after initiation returned, the finalize only after
the PUT completed) — and returns the analysis id obtained at initiation. -/
theorem C4_two_phase_upload (env : UploadEnv) (f : FileMeta) (flowId aid : String)
    (h : (submitAnalysis env f flowId).2 = .ok aid) :
    aid = initiatedId env f ∧
    (submitAnalysis env f flowId).1 =
      [.initiateCall f.name,
       .putCall (initiatedSas env f) f (putContentType f),
       .finalizeCall (initiatedId env f) flowId] := by
  cases hI : env.initiateResp f.name with
  | error e => simp [submitAnalysis, hI] at h
  | ok t =>
      obtain ⟨sasUrl, blobName, aid'⟩ := t
      cases hP : env.putResp sasUrl f with
      | error e => simp [submitAnalysis, hI, hP] at h
      | ok u =>
          cases hF : env.finalizeResp aid' flowId with
          | error e => simp [submitAnalysis, hI, hP, hF] at h
          | ok v =>
              have haid : aid' = aid := by
                simpa [submitAnalysis, hI, hP, hF] using h
              subst haid
              constructor
              · simp [initiatedId, hI]
              · simp [submitAnalysis, initiatedId, initiatedSas, hI, hP, hF]

/-- C4 witness at a concrete environment and file. -/
theorem C4_two_phase_upload_witness :
    (submitAnalysis sampleUploadEnv sampleFile "flow1").2 = Except.ok "a1" ∧
    ("a1" = initiatedId sampleUploadEnv sampleFile ∧
     (submitAnalysis sampleUploadEnv sampleFile "flow1").1 =
       [.initiateCall sampleFile.name,
        .putCall (initiatedSas sampleUploadEnv sampleFile) sampleFile
          (putContentType sampleFile),
        .finalizeCall (initiatedId sampleUploadEnv sampleFile) "flow1"]) :=
  ⟨rfl, C4_two_phase_upload sampleUploadEnv sampleFile "flow1" "a1" rfl⟩

/-- C6 counterexample: an unauthenticated visit to `/settings` is redirected
to the login screen with the original location preserved in the navigation
state, but the login page's submit handler navigates to `/` on success — it
never navigates to the preserved `/settings`. -/
theorem C6_counterexample :
    protectedRoute (some ⟨false, none⟩) "/settings" =
      .navigateTo "/login" true (some "/settings") ∧
    handleSubmitLogin (.ok "tok") = [.setAuth "tok", .navigateAction "/"] ∧
    LoginAction.navigateAction "/settings" ∉ handleSubmitLogin (.ok "tok") := by
  refine ⟨rfl, rfl, ?_⟩
  simp [handleSubmitLogin]

/-- C6 (amended): the route guard redirects every unauthenticated visitor
(once loading has finished) to `/login`, preserving the originally requested
location in the navigation state; but after a successful login the login page
always navigates to the dashboard root `/`, regardless of any preserved
location. -/
theorem C6_login_redirect (auth : Option AuthCtx) (loc tok : String)
    (h1 : authIsLoading auth = false) (h2 : authHasToken auth = false) :
    protectedRoute auth loc = .navigateTo "/login" true (some loc) ∧
    handleSubmitLogin (.ok tok) = [.setAuth tok, .navigateAction "/"] := by
  constructor
  · simp [protectedRoute, h1, h2]
  · rfl

/-- C6 witness at a concrete unauthenticated context. -/
theorem C6_login_redirect_witness :
    protectedRoute (some ⟨false, none⟩) "/settings" =
      .navigateTo "/login" true (some "/settings") ∧
    handleSubmitLogin (.ok "tok7") = [.setAuth "tok7", .navigateAction "/"] :=
  C6_login_redirect (some ⟨false, none⟩) "/settings" "tok7" rfl rfl

/-- C10: with a submittable dialog state carrying a non-empty meeting name,
if the upload pipeline succeeds but the rename fails, the rename error is
tolerated — the dialog still shows the success toast, still invokes
`onSuccess` with the new analysis id and still closes (the rename-failure
toast precedes them); with a successful rename the same success path runs;
if the pipeline itself fails, only an error toast is shown and neither
`onSuccess` nor the dialog close ever happens. -/
theorem C10_rename_tolerated (st : DialogState) (f : FileMeta)
    (calls : List BackendCall) (aid e : String)
    (renameResp : String → String → Except String Unit)
    (hfile : st.file = some f) (hcan : canSubmit st = true)
    (hname : jsTrim st.meetingName ≠ "") :
    (handleStart st (fun _ _ => (calls, .ok aid)) (fun _ _ => .error e)).actions =
      [.toastError renameFailMsg, .toastSuccess startedMsg,
       .invokeOnSuccess aid, .closeDialog] ∧
    (handleStart st (fun _ _ => (calls, .ok aid)) (fun _ _ => .ok ())).actions =
      [.toastSuccess startedMsg, .invokeOnSuccess aid, .closeDialog] ∧
    (handleStart st (fun _ _ => (calls, .error e)) renameResp).actions =
      [.toastError (if e = "" then "Échec du démarrage de la réunion" else e)] ∧
    DialogAction.invokeOnSuccess aid ∉
      (handleStart st (fun _ _ => (calls, .error e)) renameResp).actions ∧
    DialogAction.closeDialog ∉
      (handleStart st (fun _ _ => (calls, .error e)) renameResp).actions := by
  refine ⟨?_, ?_, ?_, ?_, ?_⟩ <;>
    simp [handleStart, hcan, hfile, hname]

/-- C10 witness at a concrete dialog state. -/
theorem C10_rename_tolerated_witness :
    (handleStart sampleDialogState (fun _ _ => ([], .ok "a1"))
        (fun _ _ => .error "boom")).actions =
      [.toastError renameFailMsg, .toastSuccess startedMsg,
       .invokeOnSuccess "a1", .closeDialog] ∧
    (handleStart sampleDialogState (fun _ _ => ([], .ok "a1"))
        (fun _ _ => .ok ())).actions =
      [.toastSuccess startedMsg, .invokeOnSuccess "a1", .closeDialog] ∧
    (handleStart sampleDialogState (fun _ _ => ([], .error "boom"))
        (fun _ _ => .ok ())).actions =
      [.toastError (if "boom" = "" then "Échec du démarrage de la réunion" else "boom")] ∧
    DialogAction.invokeOnSuccess "a1" ∉
      (handleStart sampleDialogState (fun _ _ => ([], .error "boom"))
        (fun _ _ => .ok ())).actions ∧
    DialogAction.closeDialog ∉
      (handleStart sampleDialogState (fun _ _ => ([], .error "boom"))
        (fun _ _ => .ok ())).actions :=
  C10_rename_tolerated sampleDialogState sampleFile [] "a1" "boom"
    (fun _ _ => .ok ()) rfl rfl (by decide)

/-- C8: on every save (the identical step mapping is used by the create and
the update payload), the submitted `step_order` values are exactly `1..N` in
the editor's displayed order at save time — entry `i` of the payload is the
displayed entry `i` with `step_order = i + 1` — and for a state freshly
loaded from the server the submitted orders are again `1..N` regardless of
the loaded `step_order` values, which only determined the initial display
order. -/
theorem C8_step_order_resequenced (steps : List EditorStep)
    (fs : List FlowStepDto) (i : Nat) :
    (savePayloadSteps steps).map (fun p => p.step_order) =
      List.range' 1 steps.length ∧
    (savePayloadSteps steps)[i]? =
      (steps[i]?).map (fun s => (⟨s.name, s.content, i + 1⟩ : StepPayload)) ∧
    (savePayloadSteps (loadedSteps fs)).map (fun p => p.step_order) =
      List.range' 1 fs.length := by
  refine ⟨?_, ?_, ?_⟩
  · simpa using savePayloadStepsFrom_orders steps 0
  · simpa using savePayloadStepsFrom_getElem steps 0 i
  · have hlen : (loadedSteps fs).length = fs.length := by
      simp [loadedSteps, sortByOrder_length]
    simpa [hlen] using savePayloadStepsFrom_orders (loadedSteps fs) 0

/-- C9: for every transcript `t` and every interval — including negative,
inverted or past-the-end endpoints — the handler clamps the interval to
`start1 = max 0 (min start |t|)` and `end1 = max start1 (min end |t|)`, the
resulting indices are in bounds (`start1 ≤ end1 ≤ |t|`), the injected HTML is
the escaped before/middle/after decomposition with the middle wrapped in the
highlight span, the three slices concatenate back to exactly `t` (so the
displayed text content is exactly `t`, as the escaping decodes back to the
slices), and no escaped fragment contains a raw `<` or `>`. -/
theorem C9_transcript_highlight (t : List Char) (start en : Int) :
    clampStart start t.length = max 0 (min start t.length) ∧
    clampEnd (clampStart start t.length) en t.length =
      max (clampStart start t.length) (min en t.length) ∧
    hlStart t start ≤ hlEnd t start en ∧
    hlEnd t start en ≤ t.length ∧
    highlightHtml t start en =
      escapeHtml (beforeSlice t start) ++ spanOpen ++
        escapeHtml (middleSlice t start en) ++ spanClose ++
        escapeHtml (afterSlice t start en) ∧
    beforeSlice t start ++ middleSlice t start en ++ afterSlice t start en = t ∧
    ('<' ∉ escapeHtml (beforeSlice t start) ∧
     '>' ∉ escapeHtml (beforeSlice t start)) ∧
    ('<' ∉ escapeHtml (middleSlice t start en) ∧
     '>' ∉ escapeHtml (middleSlice t start en)) ∧
    ('<' ∉ escapeHtml (afterSlice t start en) ∧
     '>' ∉ escapeHtml (afterSlice t start en)) ∧
    unescapeHtml (escapeHtml (beforeSlice t start)) ++
      unescapeHtml (escapeHtml (middleSlice t start en)) ++
      unescapeHtml (escapeHtml (afterSlice t start en)) = t := by
  have hse : hlStart t start ≤ hlEnd t start en := by
    unfold hlStart hlEnd clampStart clampEnd
    omega
  have hel : hlEnd t start en ≤ t.length := by
    unfold hlEnd clampStart clampEnd
    omega
  have hpart : beforeSlice t start ++ middleSlice t start en ++
      afterSlice t start en = t := by
    unfold beforeSlice middleSlice afterSlice
    have h1 : (t.take (hlEnd t start en)).take (hlStart t start) =
        t.take (hlStart t start) := by
      rw [List.take_take, min_eq_left hse]
    calc t.take (hlStart t start) ++
          (t.take (hlEnd t start en)).drop (hlStart t start) ++
          t.drop (hlEnd t start en)
        = (t.take (hlEnd t start en)).take (hlStart t start) ++
          (t.take (hlEnd t start en)).drop (hlStart t start) ++
          t.drop (hlEnd t start en) := by rw [h1]
      _ = t.take (hlEnd t start en) ++ t.drop (hlEnd t start en) := by
          rw [List.take_append_drop]
      _ = t := List.take_append_drop _ _
  refine ⟨rfl, rfl, hse, hel, rfl, hpart, ?_, ?_, ?_, ?_⟩
  · exact escapeHtml_no_angle _
  · exact escapeHtml_no_angle _
  · exact escapeHtml_no_angle _
  · rw [unescape_escape, unescape_escape, unescape_escape]
    exact hpart

/-- C2 witness: page 3 with pageSize 10 requests skip 20 and limit 10, and
total 25 with pageSize 10 gives totalPages 3. -/
theorem C2_pagination_witness :
    listAnalysesSkip 3 10 = (3 - 1) * 10 ∧
    listAnalysesLimit 10 = 10 ∧
    totalPagesComputed 25 10 = max 1 (jsCeilDiv 25 10) ∧
    (1 ≤ 25 → totalPagesComputed 25 10 = jsCeilDiv 25 10) :=
  C2_pagination 3 10 25 10 (by decide) (by decide) (by decide)

end VocalAlchemy
